import Mathlib

/-
  Shallow embedding of Roltrap-v1.py (escalator occupancy controller).

  Python floats are modelled as rationals (ℚ); Python ints as ℤ.
  Raised exceptions are modelled with Except. The GPIO echo line is
  modelled as a Boolean signal indexed by poll step.
-/

namespace Roltrap

/-- Module-level constant DEVIATION = 2 (cm), from Roltrap-v1.py line 58. -/
def DEVIATION : ℚ := 2

/-- Module-level constant SPEEDOFSOUND = 34300 (cm/s), line 55. -/
def SPEEDOFSOUND : ℚ := 34300

/-- Module-level constant TRAVELTIME = 15 (s), line 59. -/
def TRAVELTIME : ℕ := 15

/-- A Python value as it may be passed to setLastMeasurement: the default
None, an int, a float, or a string. -/
inductive PyVal where
  | none
  | int (n : ℤ)
  | float (q : ℚ)
  | str (s : String)
deriving DecidableEq

/-- The only exception the modelled methods raise is ValueError; the spec
names this failure InvalidInput. -/
inductive PyError where
  | valueError
deriving DecidableEq

/-- State of a BasicEscalator object: the rider count `_onEscalator` (a
Python int, so modelled as ℤ) and `_lastMeasurement` (a float, ℚ).
The `_status` attribute set in `__init__` is never read anywhere (the
`status` property recomputes from the count), so it is omitted. -/
structure BasicEscalator where
  escalatorCount : ℤ
  lastMeasurement : ℚ
deriving DecidableEq

/-- BasicEscalator.__init__: count 0, lastMeasurement 0. -/
def initState : BasicEscalator := { escalatorCount := 0, lastMeasurement := 0 }

/-- BasicEscalator.setLastMeasurement (lines 136-139): raises ValueError
unless the argument's type is exactly float; otherwise overwrites
`_lastMeasurement`. (The Python guard `type(measurement) is not float or
measurement is None` rejects None, ints, and strings alike.) -/
def setLastMeasurement (s : BasicEscalator) (measurement : PyVal) :
    Except PyError BasicEscalator :=
  match measurement with
  | .float q => .ok { s with lastMeasurement := q }
  | _ => .error .valueError

/-- Spec-side predicate, used only to state claims about setLastMeasurement:
a value is numeric when it is an int or a float. -/
def isNumericPy : PyVal → Bool
  | .int _ => true
  | .float _ => true
  | _ => false

/-- BasicEscalator.decreaseCount (lines 149-153): subtracts the factor
from the count, with no clamping. -/
def decreaseCount (s : BasicEscalator) (decreaseFactor : ℤ) : BasicEscalator :=
  { s with escalatorCount := s.escalatorCount - decreaseFactor }

/-- BasicEscalator.compareAndIncrease (lines 155-159): no-op on None;
otherwise increments the count when the measurement moved by at least
DEVIATION and did not increase. -/
def compareAndIncrease (s : BasicEscalator) (measurement : Option ℚ) :
    BasicEscalator :=
  match measurement with
  | Option.none => s
  | Option.some m =>
      if DEVIATION ≤ |s.lastMeasurement - m| ∧ ¬ (m > s.lastMeasurement) then
        { s with escalatorCount := s.escalatorCount + 1 }
      else s

/-- The derived running/stopped status. -/
inductive EscStatus where
  | Running
  | Stopped
deriving DecidableEq

/-- BasicEscalator.status property (lines 145-147): Running when the count
is positive, Stopped otherwise. -/
def status (s : BasicEscalator) : EscStatus :=
  if s.escalatorCount > 0 then .Running else .Stopped

/-- One iteration of SimpleDecrease.run (lines 169-176): when the count is
at least 0, decrease it by its entire current value. The per-second stop
checks only affect timing, not the state transformation. -/
def decayStep (s : BasicEscalator) : BasicEscalator :=
  if s.escalatorCount ≥ 0 then decreaseCount s s.escalatorCount else s

/-- One iteration of mainLoop (lines 191-201): compareAndIncrease with the
sensor's current distance, then, when that distance is present,
setLastMeasurement with it. The successful setLastMeasurement branch is
inlined since a present distance is a float. -/
def pollStep (s : BasicEscalator) (distance : Option ℚ) : BasicEscalator :=
  let s1 := compareAndIncrease s distance
  match distance with
  | Option.none => s1
  | Option.some q => { s1 with lastMeasurement := q }

/-- Run the Coordinator pipeline over a list of present measurements,
starting from the initial state. -/
def runPolls (ms : List ℚ) : BasicEscalator :=
  ms.foldl (fun s m => pollStep s (Option.some m)) initState

/-- An operation the running program performs on the shared state: a
Coordinator poll (with the sensor's current reading, possibly absent) or a
SimpleDecrease decay step. -/
inductive ProgOp where
  | poll (m : Option ℚ)
  | decay

/-- Apply one program operation. -/
def applyOp (s : BasicEscalator) : ProgOp → BasicEscalator
  | .poll m => pollStep s m
  | .decay => decayStep s

/-- Run a sequence of program operations from the initial state. -/
def runOps (ops : List ProgOp) : BasicEscalator :=
  ops.foldl applyOp initState

/-- Round a rational to the nearest integer, ties to even, matching
Python 3's round. -/
def roundHalfEven (q : ℚ) : ℤ :=
  if q - ⌊q⌋ < 1/2 then ⌊q⌋
  else if 1/2 < q - ⌊q⌋ then ⌊q⌋ + 1
  else if Even ⌊q⌋ then ⌊q⌋ else ⌊q⌋ + 1

/-- Python round(x, 2): round to 2 decimal places. -/
def round2 (q : ℚ) : ℚ := (roundHalfEven (q * 100) : ℚ) / 100

/-- ThreadedLoop.calculateDistance (lines 91-96): ValueError on None,
otherwise round((SPEEDOFSOUND/2) * pulseDuration, 2). -/
def calculateDistance (pulseDuration : Option ℚ) : Except PyError ℚ :=
  match pulseDuration with
  | Option.none => .error .valueError
  | Option.some d => .ok (round2 ((SPEEDOFSOUND / 2) * d))

/-- The busy-wait edge poll in ThreadedLoop.run (lines 113-117): the loop
polls the echo signal and exits at the first poll where the signal equals
the target level. `fuel` bounds how many polls we observe; the code itself
has no bound, so a result of Option.none after any fuel means the loop is
still spinning. -/
def firstEdge (sig : ℕ → Bool) (target : Bool) (fuel : ℕ) : Option ℕ :=
  (List.range fuel).find? (fun k => sig k == target)

/-! Helper lemmas shared by the claim theorems. -/

/-- The present-measurement branch of compareAndIncrease, with the Python
test `not (measurement > lastMeasurement)` rewritten to `≤`. -/
lemma compareAndIncrease_some (s : BasicEscalator) (m : ℚ) :
    compareAndIncrease s (Option.some m) =
      if DEVIATION ≤ |s.lastMeasurement - m| ∧ m ≤ s.lastMeasurement then
        { s with escalatorCount := s.escalatorCount + 1 }
      else s := by
  simp only [compareAndIncrease, gt_iff_lt, not_lt]

/-- From the initial state, a positive measurement never fires the
increment branch, because it is strictly above lastMeasurement = 0. -/
lemma compareAndIncrease_init_pos (m : ℚ) (hm : 0 < m) :
    compareAndIncrease initState (Option.some m) = initState := by
  rw [compareAndIncrease_some, if_neg]
  intro h
  exact absurd (lt_of_lt_of_le hm h.2) (lt_irrefl 0)

/-- Folding compareAndIncrease over any list of positive measurements from
the initial state changes nothing. -/
lemma fold_compareAndIncrease_init_pos : ∀ (ms : List ℚ), (∀ x ∈ ms, 0 < x) →
    ms.foldl (fun s x => compareAndIncrease s (Option.some x)) initState = initState := by
  intro ms
  induction ms with
  | nil => intro _; rfl
  | cons x rest ih =>
    intro hms
    rw [List.foldl_cons, compareAndIncrease_init_pos x (hms x (List.mem_cons_self x rest))]
    exact ih (fun y hy => hms y (List.mem_cons_of_mem x hy))

/-- Every program operation preserves nonnegativity of the count: polls add
0 or 1, and the decay step subtracts the entire current count. -/
lemma applyOp_nonneg (s : BasicEscalator) (op : ProgOp)
    (h : 0 ≤ s.escalatorCount) : 0 ≤ (applyOp s op).escalatorCount := by
  cases op with
  | poll m =>
    show 0 ≤ (pollStep s m).escalatorCount
    have hp : (pollStep s m).escalatorCount = (compareAndIncrease s m).escalatorCount := by
      cases m <;> rfl
    rw [hp]
    cases m with
    | none => exact h
    | some q =>
      rw [compareAndIncrease_some]
      split
      · show 0 ≤ s.escalatorCount + 1
        omega
      · exact h
  | decay =>
    show 0 ≤ (decayStep s).escalatorCount
    by_cases hc : s.escalatorCount ≥ 0
    · rw [decayStep, if_pos hc]
      show 0 ≤ s.escalatorCount - s.escalatorCount
      omega
    · rw [decayStep, if_neg hc]
      exact h

/-! The claim theorems. -/

/-- C1 (counterexample): decreaseCount performs no clamping: from the
initial state (count 0), decreaseCount(1) drives the count to -1, strictly
below 0, refuting the claimed clamp. -/
theorem decreaseCount_no_clamp : (decreaseCount initState 1).escalatorCount < 0 := by
  decide

/-- C1 (amended): decreaseCount subtracts with no clamping, but for every
sequence of the operations the program actually performs (Coordinator
polls and decay steps, which subtract exactly the current count), the
count is never negative. -/
theorem count_never_negative (ops : List ProgOp) : 0 ≤ (runOps ops).escalatorCount := by
  have H : ∀ (l : List ProgOp) (s : BasicEscalator), 0 ≤ s.escalatorCount →
      0 ≤ (l.foldl applyOp s).escalatorCount := by
    intro l
    induction l with
    | nil => intro s hs; exact hs
    | cons op rest ih =>
      intro s hs
      exact ih _ (applyOp_nonneg s op hs)
  exact H ops initState (by decide)

/-- C2: compareAndIncrease on an absent measurement leaves the state
unchanged; on a present measurement it increments the count by exactly 1
iff the measurement deviates by at least DEVIATION and does not exceed
lastMeasurement, and otherwise leaves the state unchanged; concretely,
from lastMeasurement 100 with DEVIATION 2, measurement 95 increments once
while 99 and 105 do not increment. -/
theorem compareAndIncrease_spec (s : BasicEscalator) (m : ℚ) :
    compareAndIncrease s Option.none = s ∧
    ((compareAndIncrease s (Option.some m)).escalatorCount = s.escalatorCount + 1 ↔
      (DEVIATION ≤ |s.lastMeasurement - m| ∧ m ≤ s.lastMeasurement)) ∧
    (compareAndIncrease s (Option.some m) = s ∨
      compareAndIncrease s (Option.some m) =
        { s with escalatorCount := s.escalatorCount + 1 }) ∧
    (compareAndIncrease ⟨s.escalatorCount, 100⟩ (Option.some 95)).escalatorCount
      = s.escalatorCount + 1 ∧
    (compareAndIncrease ⟨s.escalatorCount, 100⟩ (Option.some 99)).escalatorCount
      = s.escalatorCount ∧
    (compareAndIncrease ⟨s.escalatorCount, 100⟩ (Option.some 105)).escalatorCount
      = s.escalatorCount := by
  refine ⟨rfl, ?_, ?_, ?_, ?_, ?_⟩
  · rw [compareAndIncrease_some]
    split
    · rename_i h
      exact iff_of_true rfl h
    · rename_i h
      exact iff_of_false (by omega) h
  · rw [compareAndIncrease_some]
    split
    · exact Or.inr rfl
    · exact Or.inl rfl
  · rw [compareAndIncrease_some,
      if_pos (show DEVIATION ≤ |(100:ℚ) - 95| ∧ (95:ℚ) ≤ 100 by norm_num [DEVIATION])]
  · rw [compareAndIncrease_some, if_neg]
    show ¬ (DEVIATION ≤ |(100:ℚ) - 99| ∧ (99:ℚ) ≤ 100)
    norm_num [DEVIATION]
  · rw [compareAndIncrease_some, if_neg]
    show ¬ (DEVIATION ≤ |(100:ℚ) - 105| ∧ (105:ℚ) ≤ 100)
    norm_num [DEVIATION]

/-- The poll pipeline on a present measurement: increment when the
hysteresis condition fires, then record the measurement as last. -/
lemma pollStep_eval (c : ℤ) (l m : ℚ) :
    pollStep ⟨c, l⟩ (Option.some m) =
      if DEVIATION ≤ |l - m| ∧ m ≤ l then ⟨c + 1, m⟩ else ⟨c, m⟩ := by
  show { compareAndIncrease ⟨c, l⟩ (Option.some m) with lastMeasurement := m } = _
  rw [compareAndIncrease_some]
  by_cases h : DEVIATION ≤ |l - m| ∧ m ≤ l
  · rw [if_pos h, if_pos h]
  · rw [if_neg h, if_neg h]

/-- Rounding half-to-even lands within 1/2 of the argument. -/
lemma roundHalfEven_close (q : ℚ) : |(roundHalfEven q : ℚ) - q| ≤ 1/2 := by
  have hfl : (⌊q⌋ : ℚ) ≤ q := Int.floor_le q
  have hfu : q < (⌊q⌋ : ℚ) + 1 := Int.lt_floor_add_one q
  by_cases h1 : q - ⌊q⌋ < 1/2
  · rw [roundHalfEven, if_pos h1, abs_le]
    constructor <;> linarith
  · by_cases h2 : 1/2 < q - ⌊q⌋
    · rw [roundHalfEven, if_neg h1, if_pos h2, abs_le]
      push_cast
      constructor <;> linarith
    · have h3 : q - ⌊q⌋ ≤ 1/2 := not_lt.mp h2
      have h4 : 1/2 ≤ q - ⌊q⌋ := not_lt.mp h1
      by_cases h5 : Even ⌊q⌋
      · rw [roundHalfEven, if_neg h1, if_neg h2, if_pos h5, abs_le]
        constructor <;> linarith
      · rw [roundHalfEven, if_neg h1, if_neg h2, if_neg h5, abs_le]
        push_cast
        constructor <;> linarith

/-- Rounding to two decimal places moves the value by at most 1/200. -/
lemma round2_close (q : ℚ) : |round2 q - q| ≤ 1/200 := by
  have h := roundHalfEven_close (q * 100)
  rw [round2]
  have heq : (roundHalfEven (q * 100) : ℚ) / 100 - q
      = ((roundHalfEven (q * 100) : ℚ) - q * 100) / 100 := by
    ring
  rw [heq, abs_div, abs_of_pos (show (0:ℚ) < 100 by norm_num)]
  linarith

/-- C3: the derived status is Running iff the count is strictly positive,
and Stopped otherwise, for every state. -/
theorem status_spec (s : BasicEscalator) :
    (status s = EscStatus.Running ↔ s.escalatorCount > 0) ∧
    (status s = EscStatus.Stopped ↔ ¬ s.escalatorCount > 0) := by
  unfold status
  by_cases h : s.escalatorCount > 0
  · rw [if_pos h]
    simp [h]
  · rw [if_neg h]
    simp [h]

/-- C4 (counterexample): the integer 5 is a present, numeric value, yet
setLastMeasurement rejects it, because the Python guard demands the exact
type float; this refutes the claim that only absent or non-numeric inputs
fail. -/
theorem setLastMeasurement_rejects_int :
    isNumericPy (PyVal.int 5) = true ∧
    setLastMeasurement initState (PyVal.int 5) = Except.error PyError.valueError :=
  ⟨rfl, rfl⟩

/-- C4 (amended): setLastMeasurement fails with the InvalidInput error iff
the input is not a float value (absent and non-float values, numeric
integers included, are all rejected); on a float it overwrites
lastMeasurement and succeeds. -/
theorem setLastMeasurement_spec (s : BasicEscalator) (v : PyVal) (q : ℚ) :
    (setLastMeasurement s v = Except.error PyError.valueError ↔
      ∀ r : ℚ, v ≠ PyVal.float r) ∧
    setLastMeasurement s (PyVal.float q) =
      Except.ok { s with lastMeasurement := q } := by
  refine ⟨?_, rfl⟩
  cases v with
  | float r =>
    simp only [setLastMeasurement]
    constructor
    · intro hcontr
      exact absurd hcontr (by simp)
    · intro hall
      exact absurd rfl (hall r)
  | none => simp [setLastMeasurement]
  | int n => simp [setLastMeasurement]
  | str t => simp [setLastMeasurement]

/-- C5: for a present pulse duration the computed distance is exactly
(SPEEDOFSOUND / 2) * pulseDuration rounded to 2 decimal places, that
rounding is within 1/200 of the unrounded product, the factor equals
17150, and an absent duration raises the error. -/
theorem calculateDistance_spec (d : ℚ) :
    calculateDistance (Option.some d) =
      Except.ok (round2 ((SPEEDOFSOUND / 2) * d)) ∧
    |round2 ((SPEEDOFSOUND / 2) * d) - (SPEEDOFSOUND / 2) * d| ≤ 1/200 ∧
    SPEEDOFSOUND / 2 = 17150 ∧
    calculateDistance Option.none = Except.error PyError.valueError :=
  ⟨rfl, round2_close _, by norm_num [SPEEDOFSOUND], rfl⟩

/-- C6: refuting bounded-timeout termination for the code as written: on
an echo signal that never reaches the awaited level, the busy-wait loop of
ThreadedLoop.run is still spinning after any number of polls; it never
exits and produces no InvalidPulse failure. -/
theorem busyWait_never_exits (n : ℕ) :
    firstEdge (fun _ => false) true n = Option.none := by
  rw [firstEdge, List.find?_eq_none]
  intro k _
  simp

/-- C7: one decay step on a state with nonnegative count subtracts the
entire current count, leaving count equal to 0. -/
theorem decayStep_zero (s : BasicEscalator) (h : s.escalatorCount ≥ 0) :
    (decayStep s).escalatorCount = 0 := by
  rw [decayStep, if_pos h]
  show s.escalatorCount - s.escalatorCount = 0
  omega

/-- C7 (witness): the decay step at count 3 yields count 0. -/
theorem decayStep_zero_witness :
    (3:ℤ) ≥ 0 ∧ (decayStep ⟨3, 97⟩).escalatorCount = 0 :=
  ⟨by decide, decayStep_zero ⟨3, 97⟩ (by decide)⟩

/-- C8: the Coordinator pipeline over [100, 100, 97, 97, 97] from the
initial state increments exactly once, at the first 97: the count after
each successive poll is 0, 0, 1, 1, 1, the final status is Running, and a
single decay step then yields count 0 and status Stopped. -/
theorem scenario_end_to_end :
    (runPolls [100]).escalatorCount = 0 ∧
    (runPolls [100, 100]).escalatorCount = 0 ∧
    (runPolls [100, 100, 97]).escalatorCount = 1 ∧
    (runPolls [100, 100, 97, 97]).escalatorCount = 1 ∧
    (runPolls [100, 100, 97, 97, 97]).escalatorCount = 1 ∧
    status (runPolls [100, 100, 97, 97, 97]) = EscStatus.Running ∧
    (decayStep (runPolls [100, 100, 97, 97, 97])).escalatorCount = 0 ∧
    status (decayStep (runPolls [100, 100, 97, 97, 97])) = EscStatus.Stopped := by
  have e0 : (initState : BasicEscalator) = ⟨0, 0⟩ := rfl
  have s1 : pollStep ⟨0, 0⟩ (Option.some 100) = (⟨0, 100⟩ : BasicEscalator) := by
    rw [pollStep_eval, if_neg (by norm_num [DEVIATION])]
  have s2 : pollStep ⟨0, 100⟩ (Option.some 100) = (⟨0, 100⟩ : BasicEscalator) := by
    rw [pollStep_eval, if_neg (by norm_num [DEVIATION])]
  have s3 : pollStep ⟨0, 100⟩ (Option.some 97) = (⟨1, 97⟩ : BasicEscalator) := by
    rw [pollStep_eval, if_pos (by norm_num [DEVIATION])]
    norm_num
  have s4 : pollStep ⟨1, 97⟩ (Option.some 97) = (⟨1, 97⟩ : BasicEscalator) := by
    rw [pollStep_eval, if_neg (by norm_num [DEVIATION])]
  have h1 : runPolls [100] = (⟨0, 100⟩ : BasicEscalator) := by
    show pollStep initState (Option.some 100) = _
    rw [e0, s1]
  have h2 : runPolls [100, 100] = (⟨0, 100⟩ : BasicEscalator) := by
    show pollStep (pollStep initState (Option.some 100)) (Option.some 100) = _
    rw [e0, s1, s2]
  have h3 : runPolls [100, 100, 97] = (⟨1, 97⟩ : BasicEscalator) := by
    show pollStep (pollStep (pollStep initState (Option.some 100))
      (Option.some 100)) (Option.some 97) = _
    rw [e0, s1, s2, s3]
  have h4 : runPolls [100, 100, 97, 97] = (⟨1, 97⟩ : BasicEscalator) := by
    show pollStep (pollStep (pollStep (pollStep initState (Option.some 100))
      (Option.some 100)) (Option.some 97)) (Option.some 97) = _
    rw [e0, s1, s2, s3, s4]
  have h5 : runPolls [100, 100, 97, 97, 97] = (⟨1, 97⟩ : BasicEscalator) := by
    show pollStep (pollStep (pollStep (pollStep (pollStep initState
      (Option.some 100)) (Option.some 100)) (Option.some 97)) (Option.some 97))
      (Option.some 97) = _
    rw [e0, s1, s2, s3, s4, s4]
  refine ⟨?_, ?_, ?_, ?_, ?_, ?_, ?_, ?_⟩
  · rw [h1]
  · rw [h2]
  · rw [h3]
  · rw [h4]
  · rw [h5]
  · rw [h5]
    decide
  · rw [h5]
    decide
  · rw [h5]
    decide

/-- C9: from the initial state, whose lastMeasurement is 0, a single
compareAndIncrease with any positive measurement changes nothing, and so
does any sequence of compareAndIncrease calls with positive measurements:
no rider is counted before a real measurement is recorded. -/
theorem init_positive_no_increment (m : ℚ) (ms : List ℚ)
    (hm : 0 < m) (hms : ∀ x ∈ ms, 0 < x) :
    compareAndIncrease initState (Option.some m) = initState ∧
    ms.foldl (fun s x => compareAndIncrease s (Option.some x)) initState
      = initState :=
  ⟨compareAndIncrease_init_pos m hm, fold_compareAndIncrease_init_pos ms hms⟩

/-- C9 (witness): at measurement 5 and the sequence [100, 3]. -/
theorem init_positive_no_increment_witness :
    (0:ℚ) < 5 ∧ (∀ x ∈ [(100:ℚ), 3], 0 < x) ∧
    (compareAndIncrease initState (Option.some 5) = initState ∧
      [(100:ℚ), 3].foldl (fun s x => compareAndIncrease s (Option.some x)) initState
        = initState) :=
  ⟨by norm_num, by decide, init_positive_no_increment 5 [100, 3] (by norm_num) (by decide)⟩

/-- C10: the two mutation paths touch disjoint fields: compareAndIncrease
never changes lastMeasurement and changes the count by 0 or exactly 1,
while a successful setLastMeasurement overwrites lastMeasurement alone,
leaving the count untouched. -/
theorem frame_effects (s : BasicEscalator) (m : Option ℚ) (q : ℚ) :
    (compareAndIncrease s m).lastMeasurement = s.lastMeasurement ∧
    ((compareAndIncrease s m).escalatorCount = s.escalatorCount ∨
      (compareAndIncrease s m).escalatorCount = s.escalatorCount + 1) ∧
    setLastMeasurement s (PyVal.float q) =
      Except.ok { s with lastMeasurement := q } ∧
    ({ s with lastMeasurement := q } : BasicEscalator).escalatorCount
      = s.escalatorCount := by
  refine ⟨?_, ?_, rfl, rfl⟩
  · cases m with
    | none => rfl
    | some x =>
      rw [compareAndIncrease_some]
      split <;> rfl
  · cases m with
    | none => exact Or.inl rfl
    | some x =>
      rw [compareAndIncrease_some]
      split
      · exact Or.inr rfl
      · exact Or.inl rfl

end Roltrap
